import Mathlib

/-!
Verification development for the api_emulator repository.

The Python sources are shallowly embedded: JSON-like runtime values become the
inductive type `PyVal` (Python dicts are insertion-ordered association lists
with string keys, matching CPython 3.7+ semantics and the configurations the
engine consumes), Python strings become `List Char`, fallible code returns
`Except PyExc`, and the generator functions (`AVAILABLE_FUNCTIONS` in
`redirect_handler.py`) are abstracted as an environment mapping each function
name to the text it substitutes (the `token_pair` entry holds the comma-joined
pair exactly as `template_processor.py` lines 80-86 build it).  The `path`
argument the source threads through the template engine is consumed only by
those generator functions, so it does not appear in the model.  Python floats
and datetimes are carried as opaque string representations: no claim exercises
float arithmetic or datetime parsing.
-/

set_option autoImplicit false

namespace ApiEmulator

/-- Python strings, modelled as lists of characters. -/
abbrev Str := List Char

/-- Python substring containment, `pat in s`. -/
def containsSub : Str → Str → Bool
  | [], pat => pat.isEmpty
  | c :: cs, pat => pat.isPrefixOf (c :: cs) || containsSub cs pat

/-- Worker for `replaceSub`; the fuel starts at the length of the scanned
string and each step consumes at least one character, so fuel never runs out
when called through `replaceSub`. -/
def replaceSubF (pat new : Str) : Nat → Str → Str
  | _, [] => []
  | 0, s => s
  | fuel + 1, c :: cs =>
    if pat.isEmpty then c :: cs
    else if pat.isPrefixOf (c :: cs) then
      new ++ replaceSubF pat new fuel (cs.drop (pat.length - 1))
    else
      c :: replaceSubF pat new fuel cs

/-- Python `s.replace(old, new)`: left-to-right, non-overlapping, the
replacement text is not rescanned.  The engine only ever calls this with a
nonempty pattern (every placeholder starts with a brace); an empty pattern
leaves the string unchanged. -/
def replaceSub (s pat new : Str) : Str := replaceSubF pat new s.length s

/-- Python `str.lower()` (ASCII case folding suffices for the type tags and
truthy words the source compares against). -/
def pyLower (s : Str) : Str := s.map Char.toLower

/-- Python `str.isdigit()`: nonempty and all digits. -/
def pyIsdigit (s : Str) : Bool := !s.isEmpty && s.all Char.isDigit

/-- Digit run to integer, `none` if empty or not all digits. -/
def digitsToInt (ds : Str) : Option Int :=
  if ds.isEmpty || !ds.all Char.isDigit then none
  else some (ds.foldl (fun a c => a * 10 + (Int.ofNat (c.toNat - 48))) 0)

/-- Python `int(s)` on a string: optional surrounding whitespace, optional
sign, nonempty digit run.  (Underscore digit grouping is not modelled; no
configuration in the claims uses it.) -/
def pyIntOfStr (s : Str) : Option Int :=
  let t := ((s.dropWhile Char.isWhitespace).reverse.dropWhile Char.isWhitespace).reverse
  match t with
  | '+' :: ds => digitsToInt ds
  | '-' :: ds => (digitsToInt ds).map Int.neg
  | ds => digitsToInt ds

/-- Approximation of the Python float literal grammar: optional whitespace and
sign, digits with at most one decimal point, at least one digit.  Returns the
trimmed text as an opaque representation (floats are opaque in this model). -/
def pyFloatOfStr (s : Str) : Option String :=
  let t := ((s.dropWhile Char.isWhitespace).reverse.dropWhile Char.isWhitespace).reverse
  let core := match t with
    | '+' :: ds => ds
    | '-' :: ds => ds
    | ds => ds
  if core.any Char.isDigit
      && core.all (fun c => c.isDigit || c == '.')
      && (core.filter (fun c => c == '.')).length ≤ 1 then
    some (String.mk t)
  else
    none

/-- JSON-like Python runtime values.  Dicts are insertion-ordered association
lists with string keys; floats and datetimes are opaque representations. -/
inductive PyVal where
  | none
  | bool (b : Bool)
  | int (n : Int)
  | float (rep : String)
  | str (s : Str)
  | datetime (rep : String)
  | list (elems : List PyVal)
  | dict (entries : List (String × PyVal))

/-- Python exceptions surfaced by the embedded code. -/
inductive PyExc where
  | keyError (key : PyVal)
  | indexError
  | typeError (msg : String)
  | attributeError (msg : String)
  | valueError (msg : String)
  | validationError (msg : String)
  | httpException (status : Nat) (detail : String)
  | fuelExhausted

mutual

/-- Python structural equality `==` on the embedded values. -/
def beqVal : PyVal → PyVal → Bool
  | .none, .none => true
  | .bool a, .bool b => a == b
  | .int a, .int b => a == b
  | .float a, .float b => a == b
  | .str a, .str b => a == b
  | .datetime a, .datetime b => a == b
  | .list a, .list b => beqValList a b
  | .dict a, .dict b => beqValEntries a b
  | _, _ => false
termination_by structural v => v

def beqValList : List PyVal → List PyVal → Bool
  | [], [] => true
  | a :: as2, b :: bs => beqVal a b && beqValList as2 bs
  | _, _ => false
termination_by structural v => v

def beqValEntries : List (String × PyVal) → List (String × PyVal) → Bool
  | [], [] => true
  | (k1, v1) :: r1, (k2, v2) :: r2 => k1 == k2 && beqVal v1 v2 && beqValEntries r1 r2
  | _, _ => false
termination_by structural v => v

end

instance : BEq PyVal := ⟨beqVal⟩

mutual

/-- A structural weight on values, used only to supply ample fuel to the
repeat engine (whose recursion descends through dict lookups). -/
def pyValWeight : PyVal → Nat
  | .list xs => pyValWeightList xs + 1
  | .dict kvs => pyValWeightEntries kvs + 1
  | _ => 1
termination_by structural v => v

def pyValWeightList : List PyVal → Nat
  | [] => 1
  | x :: xs => pyValWeight x + pyValWeightList xs + 1
termination_by structural v => v

def pyValWeightEntries : List (String × PyVal) → Nat
  | [] => 1
  | (_, v) :: kvs => pyValWeight v + pyValWeightEntries kvs + 1
termination_by structural v => v

end

/-- Python truthiness (`bool(v)`). -/
def pyTruthy : PyVal → Bool
  | .none => false
  | .bool b => b
  | .int n => !(n == 0)
  | .float r => !(r == "0.0")
  | .str s => !s.isEmpty
  | .datetime _ => true
  | .list xs => !xs.isEmpty
  | .dict kvs => !kvs.isEmpty

mutual

/-- Python `str(v)`.  Scalars are rendered faithfully; container rendering
approximates `repr` (element quoting is omitted - no claim renders a
container to a string). -/
def pyStrOf : PyVal → Str
  | .none => "None".toList
  | .bool b => if b then "True".toList else "False".toList
  | .int n => (toString n).toList
  | .float r => r.toList
  | .str s => s
  | .datetime r => r.toList
  | .list xs => '[' :: (pyStrOfList xs ++ [']'])
  | .dict kvs => '\x7b' :: (pyStrOfEntries kvs ++ ['\x7d'])
termination_by structural v => v

def pyStrOfList : List PyVal → Str
  | [] => []
  | [x] => pyStrOf x
  | x :: y :: xs => pyStrOf x ++ ", ".toList ++ pyStrOfList (y :: xs)
termination_by structural v => v

def pyStrOfEntries : List (String × PyVal) → Str
  | [] => []
  | [(k, v)] => k.toList ++ ": ".toList ++ pyStrOf v
  | (k, v) :: kv2 :: kvs =>
    k.toList ++ ": ".toList ++ pyStrOf v ++ ", ".toList ++ pyStrOfEntries (kv2 :: kvs)
termination_by structural v => v

end

/-- First-match association-list lookup (Python dict access by key). -/
def lookupEntry {α : Type} : List (String × α) → String → Option α
  | [], _ => Option.none
  | (k2, v) :: rest, k => if k2 == k then some v else lookupEntry rest k

/-- Python dict membership `k in d`. -/
def hasEntry {α : Type} (xs : List (String × α)) (k : String) : Bool :=
  (lookupEntry xs k).isSome

/-- Python dict assignment `d[k] = v`: replaces in place (keeping the key's
position) when the key exists, appends otherwise. -/
def setEntry {α : Type} : List (String × α) → String → α → List (String × α)
  | [], k, v => [(k, v)]
  | (k2, v2) :: rest, k, v =>
    if k2 == k then (k, v) :: rest else (k2, v2) :: setEntry rest k v

/-- Python `d1.update(d2)`: assign every entry of `d2` in iteration order. -/
def updateEntries (xs ys : List (String × PyVal)) : List (String × PyVal) :=
  ys.foldl (fun acc kv => setEntry acc kv.1 kv.2) xs

/-- `d.get(k)` on a dict value (every receiver in the embedded code is a
dict built by the loader or by the engine itself). -/
def dictGet (v : PyVal) (k : String) : Option PyVal :=
  match v with
  | .dict kvs => lookupEntry kvs k
  | _ => Option.none

/-- `d.get(k, default)` on a dict value. -/
def dictGetD (v : PyVal) (k : String) (dflt : PyVal) : PyVal :=
  (dictGet v k).getD dflt

/-- `d[k] = v` on a dict value (non-dicts are returned unchanged; every
receiver in the embedded code is a dict). -/
def dictSet (v : PyVal) (k : String) (x : PyVal) : PyVal :=
  match v with
  | .dict kvs => .dict (setEntry kvs k x)
  | v => v

/-! ### Template engine (`template_processor.py`) -/

/-- `{name}` placeholder pattern used by `StringTemplateReplacer.replace`. -/
def placeholderPat (k : String) : Str := '\x7b' :: (k.toList ++ ['\x7d'])

/-- `{$name}` generator-function marker pattern. -/
def funcPat (k : String) : Str := '\x7b' :: '$' :: (k.toList ++ ['\x7d'])

/-- `StringTemplateReplacer.replace` on a string (lines 70-88): substitute
every `{key}` for each param in iteration order, then substitute each
`{$function}` marker that occurs.  `params` carries the already-stringified
values (the source applies `str(...)`); `funcs` is the abstract generator
environment. -/
def substStr (params funcs : List (String × Str)) (s : Str) : Str :=
  let s1 := params.foldl (fun acc kv => replaceSub acc (placeholderPat kv.1) kv.2) s
  funcs.foldl
    (fun acc kv =>
      if containsSub acc (funcPat kv.1) then replaceSub acc (funcPat kv.1) kv.2
      else acc)
    s1

/-- `StringTemplateReplacer.replace` on an arbitrary value: non-strings are
returned unchanged (lines 71-73). -/
def substVal (params funcs : List (String × Str)) (v : PyVal) : PyVal :=
  match v with
  | .str s => .str (substStr params funcs s)
  | v => v

mutual

/-- `DataProcessor._replace_vars` (lines 106-114): recursive substitution. -/
def replaceVars (params funcs : List (String × Str)) : PyVal → PyVal
  | .dict kvs => .dict (replaceVarsEntries params funcs kvs)
  | .list xs => .list (replaceVarsList params funcs xs)
  | .str s => .str (substStr params funcs s)
  | v => v
termination_by structural v => v

def replaceVarsList (params funcs : List (String × Str)) : List PyVal → List PyVal
  | [] => []
  | x :: xs => replaceVars params funcs x :: replaceVarsList params funcs xs
termination_by structural v => v

def replaceVarsEntries (params funcs : List (String × Str)) :
    List (String × PyVal) → List (String × PyVal)
  | [] => []
  | (k, v) :: kvs =>
    (k, replaceVars params funcs v) :: replaceVarsEntries params funcs kvs
termination_by structural v => v

end

/-- `TypedValueTransformer.can_transform` (lines 26-27): a dict carrying both
`_value` and `_type` keys. -/
def canTransform (kvs : List (String × PyVal)) : Bool :=
  hasEntry kvs "_value" && hasEntry kvs "_type"

/-- Python `int(v)`.  The float case is opaque in this model (CPython
truncates; no claim coerces a float), so it reports the error the fallback
path would swallow anyway. -/
def pyToInt : PyVal → Except PyExc Int
  | .bool b => .ok (if b then 1 else 0)
  | .int n => .ok n
  | .str s =>
    match pyIntOfStr s with
    | some n => .ok n
    | Option.none => .error (.valueError "invalid literal for int")
  | .float _ => .error (.typeError "float truncation not modelled")
  | _ => .error (.typeError "int() argument")

/-- Python `float(v)` (opaque representation). -/
def pyToFloat : PyVal → Except PyExc PyVal
  | .bool b => .ok (.float (if b then "1.0" else "0.0"))
  | .int n => .ok (.float (toString n ++ ".0"))
  | .float r => .ok (.float r)
  | .str s =>
    match pyFloatOfStr s with
    | some r => .ok (.float r)
    | Option.none => .error (.valueError "could not convert string to float")
  | _ => .error (.typeError "float() argument")

/-- Rough acceptance test for `datetime.fromisoformat`: `YYYY-MM-DD` shaped
prefix.  The engine never reaches this branch in any claim; the try/except in
the transformer swallows the difference anyway. -/
def isIsoDate (s : Str) : Bool :=
  match s with
  | y1 :: y2 :: y3 :: y4 :: '-' :: m1 :: m2 :: '-' :: d1 :: d2 :: _ =>
    [y1, y2, y3, y4, m1, m2, d1, d2].all Char.isDigit
  | _ => false

/-- `TypedValueTransformer._parse_datetime` (lines 53-64).  Datetime objects
and strftime output are opaque tagged strings. -/
def parseDatetimeVal (v : PyVal) (fmt : Option PyVal) : Except PyExc PyVal :=
  match v with
  | .int n => .ok (.datetime ("fromtimestamp " ++ toString n))
  | .float r => .ok (.datetime ("fromtimestamp " ++ r))
  | .str s =>
    match fmt with
    | some f =>
      match pyFloatOfStr s with
      | some ts =>
        match f with
        | .str fs => .ok (.str (("strftime " ++ String.mk fs ++ " " ++ ts).toList))
        | _ => .error (.typeError "strftime format")
      | Option.none => .error (.valueError "could not convert string to float")
    | Option.none =>
      if isIsoDate s then .ok (.datetime (String.mk s))
      else .error (.valueError "invalid isoformat string")
  | .datetime r => .ok (.datetime r)
  | _ => .error (.valueError "cannot convert to datetime")

/-- Truthy words accepted by the `bool` coercion (line 43). -/
def boolWord (s : Str) : Bool :=
  s == "true".toList || s == "1".toList || s == "yes".toList

/-- `TypedValueTransformer.transform` (lines 29-51).  The `_value` entry is
substituted again, then coerced per `_type`; `ValueError`/`TypeError` fall
back to the substituted value; a non-string `_type` raises `AttributeError`
from `.lower()`, which the except clause does not catch. -/
def transformTyped (params funcs : List (String × Str))
    (kvs : List (String × PyVal)) : Except PyExc PyVal :=
  let processed := substVal params funcs ((lookupEntry kvs "_value").getD .none)
  match (lookupEntry kvs "_type").getD .none with
  | .str tRaw =>
    let t := pyLower tRaw
    if t == "int".toList then
      match pyToInt processed with
      | .ok n => .ok (.int n)
      | .error _ => .ok processed
    else if t == "float".toList then
      match pyToFloat processed with
      | .ok v => .ok v
      | .error _ => .ok processed
    else if t == "bool".toList then
      .ok (match processed with
        | .str s => .bool (boolWord (pyLower s))
        | v => .bool (pyTruthy v))
    else if t == "str".toList then
      .ok (.str (pyStrOf processed))
    else if t == "datetime".toList then
      match parseDatetimeVal processed (lookupEntry kvs "format") with
      | .ok v => .ok v
      | .error (.valueError _) => .ok processed
      | .error (.typeError _) => .ok processed
      | .error e => .error e
    else
      .ok processed
  | _ => .error (.attributeError "lower")

mutual

/-- `DataProcessor._transform_data` (lines 116-125): recursive typed-leaf
coercion; a dict matching the typed-leaf shape is terminal. -/
def transformData (params funcs : List (String × Str)) : PyVal → Except PyExc PyVal
  | .dict kvs =>
    if canTransform kvs then transformTyped params funcs kvs
    else
      match transformDataEntries params funcs kvs with
      | .ok kvs2 => .ok (.dict kvs2)
      | .error e => .error e
  | .list xs =>
    match transformDataList params funcs xs with
    | .ok ys => .ok (.list ys)
    | .error e => .error e
  | v => .ok v
termination_by structural v => v

def transformDataList (params funcs : List (String × Str)) :
    List PyVal → Except PyExc (List PyVal)
  | [] => .ok []
  | x :: xs =>
    match transformData params funcs x with
    | .error e => .error e
    | .ok y =>
      match transformDataList params funcs xs with
      | .error e => .error e
      | .ok ys => .ok (y :: ys)
termination_by structural v => v

def transformDataEntries (params funcs : List (String × Str)) :
    List (String × PyVal) → Except PyExc (List (String × PyVal))
  | [] => .ok []
  | (k, v) :: kvs =>
    match transformData params funcs v with
    | .error e => .error e
    | .ok v2 =>
      match transformDataEntries params funcs kvs with
      | .error e => .error e
      | .ok kvs2 => .ok ((k, v2) :: kvs2)
termination_by structural v => v

end

/-- `replace_template_vars` / `DataProcessor.process` (lines 99-104,
128-151): phase 1 substitution over the whole structure, then phase 2 typed
coercion. -/
def renderTemplate (params funcs : List (String × Str)) (data : PyVal) :
    Except PyExc PyVal :=
  transformData params funcs (replaceVars params funcs data)

/-! ### Route registry and matcher (`config_loader.py`) -/

/-- Split a character list on a separator, Python `str.split(sep)` semantics:
the empty string yields `[""]`, adjacent separators yield empty segments. -/
def splitChar (sep : Char) : Str → List Str
  | [] => [[]]
  | c :: cs =>
    if c == sep then [] :: splitChar sep cs
    else
      match splitChar sep cs with
      | [] => [[c]]
      | seg :: rest => (c :: seg) :: rest

/-- Python `s.strip(ch)` for a single strip character: drop every leading and
trailing occurrence. -/
def pyStripChar (ch : Char) (s : Str) : Str :=
  ((s.dropWhile (fun c => c == ch)).reverse.dropWhile (fun c => c == ch)).reverse

/-- The segment list `path.strip('/').split('/')` used by the matcher
(lines 153-155). -/
def segsOf (path : Str) : List Str := splitChar '/' (pyStripChar '/' path)

/-- A declared segment wrapped in braces: `seg.startswith('{') and
seg.endswith('}')` (line 164). -/
def isParamSeg (seg : Str) : Bool :=
  match seg with
  | [] => false
  | c :: _ => c == '\x7b' && seg.getLast? == some '\x7d'

/-- The segment-by-segment comparison loop of `_match_path_with_params`
(lines 157-170): equal counts, each declared brace segment matches anything,
every other segment must be equal. -/
def matchPathSegs (rs ps : List Str) : Bool :=
  rs.length == ps.length
    && (List.zip rs ps).all (fun rp => isParamSeg rp.1 || rp.1 == rp.2)

/-- `_match_path_with_params(route_path, request_path)` (lines 142-170). -/
def matchPathWithParams (routePath requestPath : Str) : Bool :=
  matchPathSegs (segsOf routePath) (segsOf requestPath)

/-- A method entry of a route declaration.  Only the `method` key is
inspected by the merge and the matcher; the remaining declared fields
(content type, schema, response, webhook, redirect, extra) are abstracted
into an opaque payload tag. -/
structure MethodC where
  method : String
  payload : Nat
  deriving DecidableEq

/-- A parsed route declaration: `path` plus its method entries. -/
structure RouteC where
  path : String
  methods : List MethodC
  deriving DecidableEq

/-- The dict comprehension `{m.method: m for m in existing_route.methods}`
(line 113): later duplicates overwrite earlier ones. -/
def buildMethodDict (ms : List MethodC) : List (String × MethodC) :=
  ms.foldl (fun d m => setEntry d m.method m) []

/-- The per-route merge of `load_configs` (lines 110-121): method entries of
the newly loaded route overwrite same-method entries of the existing route
and a warning `(method, path)` is recorded for each overwritten method. -/
def mergeRoute (existing newRoute : RouteC) :
    RouteC × List (String × String) :=
  let start := buildMethodDict existing.methods
  let step := newRoute.methods.foldl
    (fun (acc : List (String × MethodC) × List (String × String)) m =>
      let warns :=
        if hasEntry acc.1 m.method then acc.2 ++ [(m.method, newRoute.path)]
        else acc.2
      (setEntry acc.1 m.method m, warns))
    (start, [])
  ({ path := newRoute.path, methods := step.1.map (fun kv => kv.2) }, step.2)

/-- The accumulation loop of `load_configs` (lines 90-128) over the already
parsed route declarations of every source, in load order: first occurrence of
a path inserts it, a later occurrence merges method maps last-writer-wins.
Returns the merged registry (insertion-ordered, as a Python dict) together
with the override warnings. -/
def loadRoutesMerge (sources : List (List RouteC)) :
    List (String × RouteC) × List (String × String) :=
  (sources.flatten).foldl
    (fun (acc : List (String × RouteC) × List (String × String)) route =>
      match lookupEntry acc.1 route.path with
      | some existing =>
        let merged := mergeRoute existing route
        (setEntry acc.1 route.path merged.1, acc.2 ++ merged.2)
      | Option.none => (setEntry acc.1 route.path route, acc.2))
    ([], [])

/-- `get_route_config` (lines 173-194): first structurally matching declared
path wins, then the first entry with the requested method; a matching path
without the method raises `ValueError`, no matching path raises
`ValueError`. -/
def findMethodEntry (ms : List MethodC) (method : String) : Option MethodC :=
  match ms with
  | [] => Option.none
  | m :: rest => if m.method == method then some m else findMethodEntry rest method

def getRouteConfig (routes : List RouteC) (path method : String) :
    Except PyExc MethodC :=
  match routes with
  | [] => .error (.valueError "route not found")
  | r :: rest =>
    if matchPathWithParams r.path.toList path.toList then
      match findMethodEntry r.methods method with
      | some m => .ok m
      | Option.none => .error (.valueError "method not supported")
    else getRouteConfig rest path method

/-! ### Schema validation (`request_handler.py` lines 93-357) -/

/-- Python `field.split(".", 1)` restricted to fields that contain a dot:
returns the text before the first dot and everything after it. -/
def splitFirstDot : Str → Option (Str × Str)
  | [] => Option.none
  | c :: cs =>
    if c == '.' then some ([], cs)
    else (splitFirstDot cs).map (fun pc => (c :: pc.1, pc.2))

/-- Whether one required field is reported missing by
`_validate_required_fields` (lines 109-120): a dotted name requires the
parent key to exist, its value to be a dict, and the child key to be
present; a plain name requires the key itself. -/
def isFieldMissing (data : List (String × PyVal)) (field : String) : Bool :=
  match splitFirstDot field.toList with
  | some (parent, child) =>
    match lookupEntry data (String.mk parent) with
    | Option.none => true
    | some v =>
      match v with
      | .dict kvs => !(hasEntry kvs (String.mk child))
      | _ => true
  | Option.none => !(hasEntry data field)

/-- The `missing_fields` list accumulated by `_validate_required_fields`
(lines 106-120), in declaration order. -/
def missingRequiredFields (data : List (String × PyVal))
    (required : List String) : List String :=
  required.filter (fun f => isFieldMissing data f)

/-- `_validate_required_fields` (lines 93-126): raises `ValidationError`
listing the missing fields, returns normally otherwise. -/
def validateRequiredFields (data : List (String × PyVal))
    (required : List String) : Except PyExc Unit :=
  let missing := missingRequiredFields data required
  if missing.isEmpty then .ok ()
  else .error (.validationError ("missing required fields: " ++ String.intercalate ", " missing))

/-- `schema.get("required", [])` together with the `"." in field` membership
tests: every element must be a string, a non-string raises `TypeError`. -/
def requiredOf (schema : PyVal) : Except PyExc (List String) :=
  match dictGetD schema "required" (.list []) with
  | .list xs =>
    xs.foldr
      (fun v acc =>
        match v, acc with
        | .str s, .ok rest => .ok (String.mk s :: rest)
        | .str _, .error e => .error e
        | _, _ => .error (.typeError "argument of type is not iterable"))
      (.ok [])
  | _ => .error (.typeError "required must be a list")

/-- Entries of a dict value, empty for non-dicts (membership tests on the
sub-schema, which the loader always materialises as a dict). -/
def entriesOfDict : PyVal → List (String × PyVal)
  | .dict kvs => kvs
  | _ => []

/-- The nested `required` check of `_validate_nested_fields` (lines
152-158): every name in the sub-schema's `required` list must be a key of
the nested object. -/
def checkNestedRequired (field : String) (vkvs : List (String × PyVal))
    (fieldSchema : PyVal) : Except PyExc Unit :=
  match dictGet fieldSchema "required" with
  | Option.none => .ok ()
  | some req =>
    match req with
    | .list names =>
      names.foldl
        (fun acc name =>
          match acc with
          | .error e => .error e
          | .ok _ =>
            let present :=
              match name with
              | .str s => hasEntry vkvs (String.mk s)
              | _ => false
            if present then .ok ()
            else .error (.validationError ("missing nested required field in " ++ field)))
        (.ok ())
    | _ => .error (.typeError "required must be a list")

mutual

/-- The traversal loop of `_validate_nested_fields` (lines 143-158): walk the
payload entries in order, handling each field that has a sub-schema. -/
def validateNestedLoop : List (String × PyVal) → List (String × PyVal) →
    Except PyExc Unit
  | [], _ => .ok ()
  | (field, value) :: rest, props =>
    match lookupEntry props field with
    | Option.none => validateNestedLoop rest props
    | some fieldSchema =>
      match validateNestedOne field value fieldSchema with
      | .error e => .error e
      | .ok _ => validateNestedLoop rest props
termination_by structural data => data

/-- One entry of the traversal (lines 147-158): a dict value whose
sub-schema declares nested `properties` is recursed into against those
properties and then checked against the sub-schema's own `required` list;
any other value is left alone. -/
def validateNestedOne (field : String) : PyVal → PyVal → Except PyExc Unit
  | .dict vkvs, fieldSchema =>
    if hasEntry (entriesOfDict fieldSchema) "properties" then
      match
        (match dictGetD fieldSchema "properties" (.dict []) with
         | .dict subprops => validateNestedLoop vkvs subprops
         | _ => .error (.typeError "properties must be a dict"))
      with
      | .error e => .error e
      | .ok _ => checkNestedRequired field vkvs fieldSchema
    else .ok ()
  | _, _ => .ok ()
termination_by structural v => v

end

/-- `_validate_nested_fields` (lines 128-158), entry point: extract the
schema's `properties` mapping and run the traversal loop. -/
def validateNestedFields (data : List (String × PyVal)) (schema : PyVal) :
    Except PyExc Unit :=
  match dictGetD schema "properties" (.dict []) with
  | .dict props => validateNestedLoop data props
  | _ => .error (.typeError "properties must be a dict")

/-- The `int`/`integer` validator lambda `isinstance(v, int) or v.isdigit()`
(lines 181-182), evaluated with Python semantics: a `bool` is an `int`
(`isinstance(True, int)` short-circuits the `or`); a non-int non-str value
has no `.isdigit` attribute, raising `AttributeError`. -/
def intValidator : PyVal → Except PyExc Bool
  | .int _ => .ok true
  | .bool _ => .ok true
  | .str s => .ok (pyIsdigit s)
  | _ => .error (.attributeError "isdigit")

/-- `isinstance(v, (int, float))` (a `bool` is an `int`). -/
def isNumber : PyVal → Bool
  | .int _ => true
  | .bool _ => true
  | .float _ => true
  | _ => false

/-- `_validate_field_type` (lines 160-193): fixed validator vocabulary,
any other declared type is skipped. -/
def validateFieldType (field : String) (value : PyVal) (fieldSchema : PyVal) :
    Except PyExc Unit :=
  match dictGet fieldSchema "type" with
  | Option.none => .ok ()
  | some t =>
    match t with
    | .str tRaw =>
      let tn := String.mk tRaw
      let check : Option (Except PyExc Bool) :=
        if tn == "str" || tn == "string" then
          some (.ok (match value with | .str _ => true | _ => false))
        else if tn == "int" || tn == "integer" then some (intValidator value)
        else if tn == "number" then some (.ok (isNumber value))
        else if tn == "boolean" then
          some (.ok (match value with | .bool _ => true | _ => false))
        else Option.none
      match check with
      | Option.none => .ok ()
      | some r =>
        match r with
        | .error e => .error e
        | .ok true => .ok ()
        | .ok false => .error (.validationError ("wrong type for field " ++ field))
    | _ => .ok ()

/-- Python `x in container` for enum membership (line 227): equality against
every element of a list, key membership of a dict, substring of a string. -/
def pyInVal (x container : PyVal) : Except PyExc Bool :=
  match container with
  | .list xs => .ok (xs.any (fun y => beqVal x y))
  | .dict kvs =>
    match x with
    | .str s => .ok (hasEntry kvs (String.mk s))
    | _ => .ok false
  | .str s =>
    match x with
    | .str sub => .ok (containsSub s sub)
    | _ => .error (.typeError "in requires str as left operand")
  | _ => .error (.typeError "argument is not iterable")

/-- `_validate_enum` (lines 213-232). -/
def validateEnum (field : String) (value : PyVal) (fieldSchema : PyVal) :
    Except PyExc Unit :=
  match dictGet fieldSchema "enum" with
  | Option.none => .ok ()
  | some e =>
    match pyInVal value e with
    | .error exc => .error exc
    | .ok true => .ok ()
    | .ok false => .error (.validationError ("invalid enum value for field " ++ field))

/-- `_check_condition` (lines 260-280): conjunction of `field == const`
comparisons over the top-level payload. -/
def checkCondition (data : List (String × PyVal)) (ifCondition : PyVal) : Bool :=
  match dictGetD ifCondition "properties" (.dict []) with
  | .dict props =>
    props.all (fun kv =>
      match lookupEntry data kv.1 with
      | Option.none => false
      | some v =>
        match dictGet kv.2 "const" with
        | some c => beqVal v c
        | Option.none => true)
  | _ => true

/-- `_validate_then_requirements` (lines 282-301). -/
def validateThenRequirements (data : List (String × PyVal))
    (thenCondition : PyVal) : Except PyExc Unit :=
  match dictGetD thenCondition "required" (.list []) with
  | .list names =>
    let missing := names.filter (fun name =>
      match name with
      | .str s => !(hasEntry data (String.mk s))
      | _ => true)
    if missing.isEmpty then .ok ()
    else .error (.validationError "conditionally required fields missing")
  | _ => .error (.typeError "required must be a list")

/-- `_validate_conditional_requirements` (lines 234-258). -/
def validateConditional (data : List (String × PyVal)) (schema : PyVal) :
    Except PyExc Unit :=
  match dictGet schema "allOf" with
  | Option.none => .ok ()
  | some conds =>
    match conds with
    | .list cs =>
      cs.foldl
        (fun acc cond =>
          match acc with
          | .error e => .error e
          | .ok _ =>
            match dictGet cond "if" with
            | Option.none => .ok ()
            | some ifCond =>
              if checkCondition data ifCond then
                validateThenRequirements data (dictGetD cond "then" (.dict []))
              else .ok ())
        (.ok ())
    | _ => .error (.typeError "allOf must be a list")

/-- The per-field loop of `validate_data` (lines 347-351): for each payload
entry with a declared sub-schema, check type then enum. -/
def validatePropsLoop (data : List (String × PyVal)) (schema : PyVal) :
    Except PyExc Unit :=
  match dictGetD schema "properties" (.dict []) with
  | .dict props =>
    data.foldl
      (fun acc kv =>
        match acc with
        | .error e => .error e
        | .ok _ =>
          match lookupEntry props kv.1 with
          | Option.none => .ok ()
          | some fieldSchema =>
            match validateFieldType kv.1 kv.2 fieldSchema with
            | .error e => .error e
            | .ok _ => validateEnum kv.1 kv.2 fieldSchema)
      (.ok ())
  | _ => .error (.typeError "properties must be a dict")

/-- `validate_data` (lines 332-357): required fields, nested objects,
per-field type and enum, conditional rules, in that order; a
`ValidationError` is converted to an HTTP 400, any other exception (such as
the `AttributeError` from the int validator) propagates unchanged. -/
def validateData (data : List (String × PyVal)) (schema : PyVal) :
    Except PyExc Unit :=
  let phases : Except PyExc Unit :=
    match requiredOf schema with
    | .error e => .error e
    | .ok required =>
      match validateRequiredFields data required with
      | .error e => .error e
      | .ok _ =>
        match validateNestedFields data schema with
        | .error e => .error e
        | .ok _ =>
          match validatePropsLoop data schema with
          | .error e => .error e
          | .ok _ => validateConditional data schema
  match phases with
  | .error (.validationError m) => .error (.httpException 400 m)
  | other => other

/-! ### Rate limiting and the request wrapper (`request_handler.py`
lines 31-62 and 359-376) -/

/-- The request data the rate limiter and the browser-path check consume. -/
structure PyRequest where
  urlPath : String
  userIdParam : Option String
  clientHost : String
  deriving DecidableEq

/-- The shared `rate_limit_cache`: per-key recorded timestamps. -/
abbrev RateCache := List (String × List Int)

/-- The cache key (lines 46-49): the decorator on `process_request` uses
`key_prefix = f"request:{request.url.path}"` and
`user_id = request.path_params.get("user_id") or request.client.host`
(Python `or`: an empty string falls through to the host). -/
def rateLimitKey (req : PyRequest) : String :=
  let userId :=
    match req.userIdParam with
    | some s => if s == "" then req.clientHost else s
    | Option.none => req.clientHost
  "request:" ++ req.urlPath ++ ":" ++ userId

/-- One pass through the guarded section (lines 50-59): keep only the
timestamps inside the window, reject (without updating the cache) when the
limit is reached, otherwise record `now`. -/
def rateLimitStep (cache : RateCache) (key : String) (now : Int)
    (limit : Nat) (periodSec : Int) : RateCache × Bool :=
  if limit ≤ (((lookupEntry cache key).getD []).filter
      (fun t => now - periodSec < t)).length then
    (cache, false)
  else
    (setEntry cache key
      ((((lookupEntry cache key).getD []).filter
        (fun t => now - periodSec < t)) ++ [now]), true)

/-- `is_browser_request` (lines 80-91). -/
def isBrowserRequest (path : String) : Bool :=
  path == "/favicon.ico" || path == "/robots.txt" || path == "/sitemap.xml"
    || path == "/humans.txt"

/-- `process_request` under its `@rate_limit(..., limit=5,
period_sec=3600)` decorator (lines 359-376), with the post-admission
routing/validation/rendering pipeline abstracted as `handler`: the limiter
runs first; an admitted request to a browser-noise path short-circuits to a
204 result; otherwise the pipeline runs.  Returns the updated cache and the
outcome. -/
def processRequestModel (handler : PyRequest → Except PyExc PyVal)
    (cache : RateCache) (req : PyRequest) (now : Int) :
    RateCache × Except PyExc PyVal :=
  match rateLimitStep cache (rateLimitKey req) now 5 3600 with
  | (c, false) => (c, .error (.httpException 429 "rate limit exceeded"))
  | (c2, true) =>
    if isBrowserRequest req.urlPath then
      (c2, .ok (.dict [("status_code", .int 204)]))
    else (c2, handler req)

/-! ### Webhook dispatch (`webhook_handler.py` and `request_handler.py`
lines 835-876) -/

/-- The outcome of the outbound HTTP POST, abstracted at the aiohttp
boundary. -/
inductive TransportOutcome where
  | jsonResponse (body : PyVal)
  | otherResponse (status : Int) (contentType : String) (text : String)
  | clientError (msg : String)
  | unexpectedError (msg : String)

/-- `send_webhook` (`webhook_handler.py` lines 13-47): a JSON response is
returned as parsed JSON, any other response as `{status, content_type,
text}`; `aiohttp.ClientError` and every other exception are caught, logged
and turned into `None` - the transport failure never escapes this layer. -/
def sendWebhook (outcome : TransportOutcome) : Option PyVal :=
  match outcome with
  | .jsonResponse body => some body
  | .otherResponse status contentType text =>
    some (.dict [("status", .int status),
                 ("content_type", .str contentType.toList),
                 ("text", .str text.toList)])
  | .clientError _ => Option.none
  | .unexpectedError _ => Option.none

/-- The webhook configuration of a route: the `enabled` flag and the
discriminator to `{url, data}` mapping. -/
structure WebhookCfg where
  enabled : Bool
  dataMapping : List (String × PyVal)

/-- `process_webhook` (`request_handler.py` lines 835-876): pick the mapping
entry by the `type` discriminator (default `user_created`), report 400 with
the available types when it is missing or falsy; then the source calls
`replace_template_vars(webhook_data_mapping.get("data", {}), params)` and
`replace_template_vars(webhook_data_mapping.get("url", ""), params)`
(lines 858-861) - two positional arguments for a three-parameter function
(`template_processor.py` line 128), so Python raises `TypeError` before any
send is attempted; the `try` block around `send_webhook` (lines 863-876),
which would convert a raised send failure into an HTTP 500 carrying the url
and payload, is never reached, and `sendWebhook` itself never raises. -/
def processWebhook (cfg : WebhookCfg) (params : List (String × PyVal))
    (_outcome : TransportOutcome) : Except PyExc (Option PyVal) :=
  let webhookType := (lookupEntry params "type").getD (.str "user_created".toList)
  let mapping :=
    match webhookType with
    | .str s => lookupEntry cfg.dataMapping (String.mk s)
    | _ => Option.none
  match mapping with
  | Option.none => .error (.httpException 400 "unknown webhook type")
  | some m =>
    if !pyTruthy m then .error (.httpException 400 "unknown webhook type")
    else
      .error (.typeError
        "replace_template_vars() missing 1 required positional argument")

/-! ### The hierarchical repeat engine (`request_handler.py` lines 420-718)

`get_int` is imported from `src.helpers`, which is not among the provided
sources, so it is modelled from the spec.  The hierarchy nodes are Python
dicts (`{"name": ..., "count": ..., "children": [...]}`), and the embedding
keeps them as `PyVal` dicts because the engine's behavior depends on dict-key
presence (`_build_nested_hierarchy` subscripts `parent_item["children"]`,
which raises `KeyError` for a node that was attached without that key). -/

/-- Modelled from the spec: `get_int` (imported from the missing
`src/helpers.py`) parses a rendered repeat count; per spec §4.5 the count "is
first template-rendered against request params, then parsed as an integer;
non-numeric results in count 0, not an error". -/
def get_int : PyVal → Int
  | .int n => n
  | .str s => (pyIntOfStr s).getD 0
  | _ => 0

/-- Python subscript `v[k]` with a string key. -/
def pySubscriptStr (v : PyVal) (k : String) : Except PyExc PyVal :=
  match v with
  | .dict kvs =>
    match lookupEntry kvs k with
    | some x => .ok x
    | Option.none => .error (.keyError (.str k.toList))
  | .list _ => .error (.typeError "list indices must be integers")
  | .str _ => .error (.typeError "string indices must be integers")
  | _ => .error (.typeError "object is not subscriptable")

/-- Python subscript `v[i]` with an integer index (negative indices wrap; an
integer key on a string-keyed dict raises `KeyError(i)`). -/
def pySubscriptInt (v : PyVal) (i : Int) : Except PyExc PyVal :=
  match v with
  | .dict _ => .error (.keyError (.int i))
  | .list xs =>
    let j := if i < 0 then i + xs.length else i
    if h : 0 ≤ j ∧ j.toNat < xs.length then .ok (xs.get ⟨j.toNat, h.2⟩)
    else .error .indexError
  | .str s =>
    let j := if i < 0 then i + s.length else i
    if h : 0 ≤ j ∧ j.toNat < s.length then .ok (.str [s.get ⟨j.toNat, h.2⟩])
    else .error .indexError
  | _ => .error (.typeError "object is not subscriptable")

/-- Python `k in v` for a string `k`. -/
def pyInKey (k : String) : PyVal → Except PyExc Bool
  | .dict kvs => .ok (hasEntry kvs k)
  | .list xs => .ok (xs.any (fun y => beqVal (.str k.toList) y))
  | .str s => .ok (containsSub s k.toList)
  | _ => .error (.typeError "argument is not iterable")

/-- Python iteration over a value (list elements, dict keys, string
characters). -/
def pyIterElems : PyVal → Except PyExc (List PyVal)
  | .list xs => .ok xs
  | .dict kvs => .ok (kvs.map (fun kv => .str kv.1.toList))
  | .str s => .ok (s.map (fun c => .str [c]))
  | _ => .error (.typeError "object is not iterable")

/-- Python `xs.extend(arg)` on a list. -/
def pyExtendList (txs : List PyVal) (arg : PyVal) : Except PyExc (List PyVal) :=
  match pyIterElems arg with
  | .error _ => .error (.typeError "object is not iterable")
  | .ok ys => .ok (txs ++ ys)

/-- Python `v[i] = x` on a list (only index 0 is used by the engine). -/
def pyListSetAt (v : PyVal) (i : Nat) (x : PyVal) : Except PyExc PyVal :=
  match v with
  | .list xs =>
    if i < xs.length then .ok (.list (xs.set i x)) else .error .indexError
  | .str _ => .error (.typeError "str does not support item assignment")
  | _ => .error (.typeError "object does not support item assignment")

/-- Python `v[k] = x` with a string key. -/
def pySetItemStr (v : PyVal) (k : String) (x : PyVal) : Except PyExc PyVal :=
  match v with
  | .dict kvs => .ok (.dict (setEntry kvs k x))
  | .list _ => .error (.typeError "list indices must be integers")
  | _ => .error (.typeError "object does not support item assignment")

/-- `existing_item.get("name") == name` (lines 490-491, 520-521): true only
when the node carries an equal string name.  (Every node in a built
hierarchy is a dict.) -/
def nameMatches (d : PyVal) (name : Str) : Bool :=
  match dictGet d "name" with
  | some (.str s) => s == name
  | _ => false

/-- `_add_or_update_root_item` (lines 480-497): update the count of the
first node with this name in place, or append a fresh root node with an
empty children list. -/
def addOrUpdateRootItem : List PyVal → Str → PyVal → List PyVal
  | [], name, count =>
    [.dict [("name", .str name), ("count", count), ("children", .list [])]]
  | d :: rest, name, count =>
    if nameMatches d name then dictSet d "count" count :: rest
    else d :: addOrUpdateRootItem rest name count

/-- First node with a given name on a level, split into
(before, node, after). -/
def findSplitByName : List PyVal → Str → Option (List PyVal × PyVal × List PyVal)
  | [], _ => Option.none
  | d :: rest, p =>
    if nameMatches d p then some ([], d, rest)
    else
      match findSplitByName rest p with
      | some (b, x, a) => some (d :: b, x, a)
      | Option.none => Option.none

/-- `_build_nested_hierarchy` (lines 499-539), restructured from the
level-walking loop into recursion on the name parts: each intermediate part
either descends into the existing node with that name (subscripting its
`children` key - a `KeyError` when the node was attached as a final child
without one) or creates a `{"name", "count": "1", "children"}` node; the
final part is appended as `{"name", "count"}` without a `children` key.  An
empty parts list would make the source's `name_parts[-1]` raise
`IndexError`; `splitChar` never produces it. -/
def buildNested : List PyVal → List Str → PyVal → Except PyExc (List PyVal)
  | _, [], _ => .error .indexError
  | level, [last], count =>
    .ok (level ++ [.dict [("name", .str last), ("count", count)]])
  | level, p :: q :: rest2, count =>
    match findSplitByName level p with
    | some (before, d, after) =>
      match dictGet d "children" with
      | Option.none => .error (.keyError (.str "children".toList))
      | some (.list cs) =>
        match buildNested cs (q :: rest2) count with
        | .error e => .error e
        | .ok cs2 => .ok (before ++ [dictSet d "children" (.list cs2)] ++ after)
      | some _ => .error (.typeError "children is not iterable")
    | Option.none =>
      match buildNested [] (q :: rest2) count with
      | .error e => .error e
      | .ok cs2 =>
        .ok (level ++ [.dict [("name", .str p), ("count", .str "1".toList),
                              ("children", .list cs2)]])

/-- The item loop of `_build_repeat_hierarchy` (lines 449-478): a
single-segment name adds or updates a root node, a dotted name builds the
nested chain; a non-dict item or a non-string name would raise
`AttributeError` (`item.get` / `item_name.split`). -/
def buildRepeatHierarchyAux : List PyVal → List PyVal → Except PyExc (List PyVal)
  | hierarchy, [] => .ok hierarchy
  | hierarchy, item :: rest =>
    match item with
    | .dict _ =>
      match dictGetD item "name" (.str []) with
      | .str itemName =>
        let nameParts := splitChar '.' itemName
        let count := dictGetD item "count" (.str "1".toList)
        let built : Except PyExc (List PyVal) :=
          if nameParts.length == 1 then
            .ok (addOrUpdateRootItem hierarchy itemName count)
          else buildNested hierarchy nameParts count
        match built with
        | .error e => .error e
        | .ok h2 => buildRepeatHierarchyAux h2 rest
      | _ => .error (.attributeError "split")
    | _ => .error (.attributeError "get")

/-- `_build_repeat_hierarchy` (lines 449-478). -/
def buildRepeatHierarchy (items : List PyVal) : Except PyExc (List PyVal) :=
  buildRepeatHierarchyAux [] items

/-- `_extract_data_by_name` (lines 663-688): collect, across the rendered
results, the sub-value named `name` (looked up at `res[parent_name][0]` when
a parent name is given, at `res` itself otherwise); list values are
concatenated, other values appended. -/
def extractDataByName : List PyVal → String → Option String →
    Except PyExc (List PyVal)
  | [], _, _ => .ok []
  | res :: rest, name, parentName =>
    let stepE : Except PyExc (List PyVal) :=
      match parentName with
      | some pn =>
        match pySubscriptStr res pn with
        | .error e => .error e
        | .ok inner =>
          match pySubscriptInt inner 0 with
          | .error e => .error e
          | .ok first =>
            match pyInKey name first with
            | .error e => .error e
            | .ok false => .ok []
            | .ok true =>
              match pySubscriptStr first name with
              | .error e => .error e
              | .ok (.list xs) => .ok xs
              | .ok other => .ok [other]
      | Option.none =>
        match pyInKey name res with
        | .error e => .error e
        | .ok false => .ok []
        | .ok true =>
          match pySubscriptStr res name with
          | .error e => .error e
          | .ok (.list xs) => .ok xs
          | .ok other => .ok [other]
    match stepE with
    | .error e => .error e
    | .ok step =>
      match extractDataByName rest name parentName with
      | .error e => .error e
      | .ok restOut => .ok (step ++ restOut)

/-- `_merge_nested_data` (lines 690-718): if the parent key already holds a
dict, update it with the nested data; if it holds anything else, extend the
list at `parent_result[parent_name][0][first nested key]` with the first
nested value; if the parent key is absent, assign the nested data under
it. -/
def mergeNestedData (parentResult : PyVal) (parentName : String)
    (nested : PyVal) : Except PyExc PyVal :=
  match pyInKey parentName parentResult with
  | .error e => .error e
  | .ok true =>
    match pySubscriptStr parentResult parentName with
    | .error e => .error e
    | .ok cur =>
      match cur with
      | .dict curKvs =>
        match nested with
        | .dict nkvs =>
          pySetItemStr parentResult parentName (.dict (updateEntries curKvs nkvs))
        | _ => .error (.typeError "update expects a mapping")
      | _ =>
        match nested with
        | .dict [] => .error .indexError
        | .dict ((k0, v0) :: _) =>
          match pySubscriptInt cur 0 with
          | .error e => .error e
          | .ok elem0 =>
            match pySubscriptStr elem0 k0 with
            | .error e => .error e
            | .ok (.list txs) =>
              match pyExtendList txs v0 with
              | .error e => .error e
              | .ok txs2 =>
                match pySetItemStr elem0 k0 (.list txs2) with
                | .error e => .error e
                | .ok elem02 =>
                  match pyListSetAt cur 0 elem02 with
                  | .error e => .error e
                  | .ok cur2 => pySetItemStr parentResult parentName cur2
            | .ok _ => .error (.attributeError "extend")
        | _ => .error (.typeError "keys")
  | .ok false => pySetItemStr parentResult parentName nested

/-- `_process_nested_children` (lines 607-661), with an explicit fuel bound
on the descent (the source recursion descends the finite children structure,
which is reached through dict lookups and hence not structurally visible;
the entry point supplies fuel exceeding the hierarchy's node count).  The
per-count loop body is pure and its arguments do not change between
iterations, so the source's `count` identical iterations are modelled as one
computation replicated `count` times, which also reproduces the exception
behavior - a zero count runs no iteration and raises nothing.  The
accumulator is the `nested_data` dict built by assignment in child order. -/
def processNestedChildren (params funcs : List (String × Str)) (response : PyVal) :
    Nat → String → List PyVal → List (String × PyVal) →
    Except PyExc (List (String × PyVal))
  | _, _, [], acc => .ok acc
  | 0, _, _ :: _, _ => .error .fuelExhausted
  | fuel + 1, parentName, childItem :: rest, acc =>
    match pySubscriptStr childItem "name" with
    | .error e => .error e
    | .ok (.str childNameStr) =>
      let childName := String.mk childNameStr
      match pySubscriptStr childItem "count" with
      | .error e => .error e
      | .ok countRaw =>
        let childCount := (get_int (substVal params funcs countRaw)).toNat
        let childrenVal := dictGet childItem "children"
        let hasKids := match childrenVal with
          | some v => pyTruthy v
          | Option.none => false
        let resultsE : Except PyExc (List PyVal) :=
          if hasKids then
            match childrenVal with
            | some (.list gkids) =>
              if childCount == 0 then .ok []
              else
                match renderTemplate params funcs response with
                | .error e => .error e
                | .ok childResult =>
                  match processNestedChildren params funcs response fuel
                      childName gkids [] with
                  | .error e => .error e
                  | .ok nestedChild =>
                    match mergeNestedData childResult childName
                        (.dict nestedChild) with
                    | .error e => .error e
                    | .ok merged => .ok (List.replicate childCount merged)
            | _ => .error (.typeError "children is not iterable")
          else
            if childCount == 0 then .ok []
            else
              match renderTemplate params funcs response with
              | .error e => .error e
              | .ok rendered => .ok (List.replicate childCount rendered)
        match resultsE with
        | .error e => .error e
        | .ok childResults =>
          match extractDataByName childResults childName (some parentName) with
          | .error e => .error e
          | .ok extracted =>
            processNestedChildren params funcs response fuel parentName rest
              (setEntry acc childName (.list extracted))
    | .ok _ => .error (.typeError "child name is not a string")

/-- Flattening for the `root` sentinel (lines 572, 598):
`[item for sublist in results for item in sublist]`. -/
def flattenSublists : List PyVal → Except PyExc (List PyVal)
  | [] => .ok []
  | sub :: rest =>
    match pyIterElems sub with
    | .error e => .error e
    | .ok xs =>
      match flattenSublists rest with
      | .error e => .error e
      | .ok ys => .ok (xs ++ ys)

/-- `_execute_hierarchical_repeat` (lines 541-605): for each top-level node,
render the unit `count` times (merging recursively processed children into
each rendered parent when the node has children), then either flatten (name
`root`) or extract-and-assign under the node's name.  As in
`processNestedChildren`, the identical loop iterations are modelled as one
computation replicated.  The accumulator is the `result` value, initially an
empty dict; a `root` node replaces it with a flat list (a later assignment
`result[name] = ...` on that list then raises `TypeError`, as in Python). -/
def executeHierarchicalRepeatAux (params funcs : List (String × Str))
    (response : PyVal) (fuel : Nat) : List PyVal → PyVal → Except PyExc PyVal
  | [], result => .ok result
  | item :: rest, result =>
    match pySubscriptStr item "name" with
    | .error e => .error e
    | .ok (.str itemNameStr) =>
      let itemName := String.mk itemNameStr
      match pySubscriptStr item "count" with
      | .error e => .error e
      | .ok countRaw =>
        let count := (get_int (substVal params funcs countRaw)).toNat
        let childrenVal := dictGet item "children"
        let hasKids := match childrenVal with
          | some v => pyTruthy v
          | Option.none => false
        let resultsE : Except PyExc (List PyVal) :=
          if hasKids then
            match childrenVal with
            | some (.list kids) =>
              if count == 0 then .ok []
              else
                match renderTemplate params funcs response with
                | .error e => .error e
                | .ok parentResult =>
                  match processNestedChildren params funcs response fuel
                      itemName kids [] with
                  | .error e => .error e
                  | .ok nested =>
                    match mergeNestedData parentResult itemName
                        (.dict nested) with
                    | .error e => .error e
                    | .ok merged => .ok (List.replicate count merged)
            | _ => .error (.typeError "children is not iterable")
          else
            if count == 0 then .ok []
            else
              match renderTemplate params funcs response with
              | .error e => .error e
              | .ok rendered => .ok (List.replicate count rendered)
        match resultsE with
        | .error e => .error e
        | .ok results =>
          if itemName == "root" then
            match flattenSublists results with
            | .error e => .error e
            | .ok flat =>
              executeHierarchicalRepeatAux params funcs response fuel rest
                (.list flat)
          else
            match extractDataByName results itemName Option.none with
            | .error e => .error e
            | .ok extracted =>
              match pySetItemStr result itemName (.list extracted) with
              | .error e => .error e
              | .ok result2 =>
                executeHierarchicalRepeatAux params funcs response fuel rest
                  result2
    | .ok _ => .error (.typeError "item name is not a string")

/-- `_execute_hierarchical_repeat` entry point: `result = {}` then the item
loop, with fuel exceeding the hierarchy's node count. -/
def executeHierarchicalRepeat (params funcs : List (String × Str))
    (response : PyVal) (hierarchy : List PyVal) : Except PyExc PyVal :=
  executeHierarchicalRepeatAux params funcs response
    (pyValWeightList hierarchy + 1) hierarchy (.dict [])

/-- Short reproduction text for the HTTP 500 detail (`str(e)` in the
source; the embedding keeps a fixed tag per exception kind). -/
def excText : PyExc → String
  | .keyError _ => "KeyError"
  | .indexError => "IndexError"
  | .typeError m => m
  | .attributeError m => m
  | .valueError m => m
  | .validationError m => m
  | .httpException _ d => d
  | .fuelExhausted => "fuel exhausted"

/-- `processing_result` (lines 420-447): without a truthy
`extra["repeat"]["items"]` chain the response is rendered plainly; otherwise
the hierarchy is built and executed, and any exception from that becomes an
HTTP 500. -/
def processingResult (params funcs : List (String × Str))
    (response extra : PyVal) : Except PyExc PyVal :=
  if !pyTruthy extra then renderTemplate params funcs response
  else
    match extra with
    | .dict _ =>
      match dictGet extra "repeat" with
      | Option.none => renderTemplate params funcs response
      | some repV =>
        if !pyTruthy repV then renderTemplate params funcs response
        else
          match repV with
          | .dict _ =>
            match dictGet repV "items" with
            | Option.none => renderTemplate params funcs response
            | some items =>
              if !pyTruthy items then renderTemplate params funcs response
              else
                match items with
                | .list itemList =>
                  match buildRepeatHierarchy itemList with
                  | .error e => .error (.httpException 500 (excText e))
                  | .ok hierarchy =>
                    match executeHierarchicalRepeat params funcs response
                        hierarchy with
                    | .error e => .error (.httpException 500 (excText e))
                    | .ok v => .ok v
                | _ => .error (.httpException 500 "items is not a list")
          | _ => .error (.attributeError "get")
    | _ => .error (.attributeError "get")

/-! ### No-placeholder and no-typed-leaf predicates (for the identity
properties of the template engine) -/

/-- Whether a string contains an opening brace (the first character of every
`{name}` placeholder and `{$name}` marker). -/
def hasBrace : Str → Bool
  | [] => false
  | c :: cs => c == '\x7b' || hasBrace cs

mutual

/-- No string leaf of the value contains an opening brace (hence no
`{...}` token at all). -/
def noBraceVal : PyVal → Bool
  | .str s => !hasBrace s
  | .list xs => noBraceList xs
  | .dict kvs => noBraceEntries kvs
  | _ => true
termination_by structural v => v

def noBraceList : List PyVal → Bool
  | [] => true
  | x :: xs => noBraceVal x && noBraceList xs
termination_by structural v => v

def noBraceEntries : List (String × PyVal) → Bool
  | [] => true
  | (_, v) :: kvs => noBraceVal v && noBraceEntries kvs
termination_by structural v => v

end

mutual

/-- No sub-dict of the value matches the typed-leaf shape (`_value` and
`_type` keys both present). -/
def noTypedLeafVal : PyVal → Bool
  | .dict kvs => !canTransform kvs && noTypedLeafEntries kvs
  | .list xs => noTypedLeafList xs
  | _ => true
termination_by structural v => v

def noTypedLeafList : List PyVal → Bool
  | [] => true
  | x :: xs => noTypedLeafVal x && noTypedLeafList xs
termination_by structural v => v

def noTypedLeafEntries : List (String × PyVal) → Bool
  | [] => true
  | (_, v) :: kvs => noTypedLeafVal v && noTypedLeafEntries kvs
termination_by structural v => v

end

/-! ### Concrete configuration values appearing in the claims -/

/-- One `extra.repeat.items` entry, `{"name": ..., "count": ...}`. -/
def repeatItem (name count : String) : PyVal :=
  .dict [("name", .str name.toList), ("count", .str count.toList)]

/-- The item list `[{chats, 2}, {chats.users, 3}]`. -/
def chatsRepeatItems : List PyVal :=
  [repeatItem "chats" "2", repeatItem "chats.users" "3"]

/-- The unit template `{"chats": {"users": ["u"]}}`. -/
def chatsUnitTemplate : PyVal :=
  .dict [("chats", .dict [("users", .list [.str "u".toList])])]

/-- The singleton-list-shaped unit template `{"chats": [{"users": ["u"]}]}`
(the result shape the extraction step `res[parent_name][0]` assumes). -/
def chatsUnitTemplateList : PyVal :=
  .dict [("chats", .list [.dict [("users", .list [.str "u".toList])]])]

/-- `model_extra` declaring the chats repeat. -/
def chatsRepeatExtra : PyVal :=
  .dict [("repeat", .dict [("items", .list chatsRepeatItems)])]

/-- One assembled chat over the singleton-list template: the unit's own
`"u"` entry plus the three appended by the child batch. -/
def chatsExpectedElem : PyVal :=
  .dict [("users", .list (List.replicate 4 (.str "u".toList)))]

/-- The assembled result over the singleton-list template. -/
def chatsExpectedResult : PyVal :=
  .dict [("chats", .list [chatsExpectedElem, chatsExpectedElem])]

/-- The chain `a`, `a.b`, `a.b.c` declared in that order. -/
def chainRepeatItems : List PyVal :=
  [repeatItem "a" "1", repeatItem "a.b" "2", repeatItem "a.b.c" "3"]

/-- The two-level prefix `a`, `a.b` of the chain. -/
def chainPrefixItems : List PyVal := [repeatItem "a" "1", repeatItem "a.b" "2"]

/-- The typed leaf `{"_value": "42", "_type": "int"}`. -/
def typedLeafInt42 : PyVal :=
  .dict [("_value", .str "42".toList), ("_type", .str "int".toList)]

/-- The typed leaf `{"_value": "nope", "_type": "int"}`. -/
def typedLeafIntNope : PyVal :=
  .dict [("_value", .str "nope".toList), ("_type", .str "int".toList)]

/-- The typed leaf `{"_value": "1", "_type": "int"}` (a placeholder-free
value that rendering does not fix). -/
def typedLeafInt1 : PyVal :=
  .dict [("_value", .str "1".toList), ("_type", .str "int".toList)]

/-- The schema `{"type": "object", "properties": {}, "required": ["a",
"b.c"]}`. -/
def requiredDotSchema : PyVal :=
  .dict [("type", .str "object".toList), ("properties", .dict []),
         ("required", .list [.str "a".toList, .str "b.c".toList])]

/-- The field schema `{"type": "int"}`. -/
def intFieldSchema : PyVal := .dict [("type", .str "int".toList)]

/-- The field schema `{"type": "integer"}`. -/
def integerFieldSchema : PyVal := .dict [("type", .str "integer".toList)]

/-- A request schema declaring one field `x` of type `int`. -/
def xIntSchema : PyVal :=
  .dict [("type", .str "object".toList),
         ("properties", .dict [("x", intFieldSchema)])]

/-- An enabled webhook with one `user_created` data-mapping entry. -/
def webhookCfgExample : WebhookCfg :=
  ⟨true, [("user_created",
          .dict [("url", .str "http://hooks.example/w".toList),
                 ("data", .dict [("event", .str "user_created".toList)])])]⟩

/-- Request params selecting the `user_created` discriminator. -/
def webhookParamsExample : List (String × PyVal) :=
  [("type", .str "user_created".toList)]

/-- A cache holding five in-window timestamps for the favicon path of one
client. -/
def fullCacheExample : RateCache :=
  [("request:/favicon.ico:9.9.9.9", [100, 200, 300, 400, 500])]

/-- A request for a browser-noise path from that client. -/
def faviconRequest : PyRequest := ⟨"/favicon.ico", Option.none, "9.9.9.9"⟩

/-! ## Helper lemmas -/

theorem replaceSubF_brace_id (r new : Str) :
    ∀ (fuel : Nat) (s : Str), hasBrace s = false →
      replaceSubF ('\x7b' :: r) new fuel s = s := by
  intro fuel
  induction fuel with
  | zero => intro s _; cases s <;> rfl
  | succ n ih =>
    intro s h
    cases s with
    | nil => rfl
    | cons c cs =>
      simp only [hasBrace, Bool.or_eq_false_iff] at h
      have hc : ('\x7b' == c) = false := by
        cases hc2 : ('\x7b' == c) with
        | false => rfl
        | true =>
          exact absurd (by rw [(beq_iff_eq).mp hc2] at h; exact h.1) (by simp)
      simp only [replaceSubF, List.isPrefixOf, hc, Bool.false_and,
        Bool.and_eq_true, List.isEmpty_cons, if_false]
      simp only [ih cs h.2, Bool.false_eq_true, if_false]

theorem containsSub_brace (r : Str) :
    ∀ (s : Str), hasBrace s = false → containsSub s ('\x7b' :: r) = false := by
  intro s
  induction s with
  | nil => intro _; rfl
  | cons c cs ih =>
    intro h
    simp only [hasBrace, Bool.or_eq_false_iff] at h
    have hc : ('\x7b' == c) = false := by
      cases hc2 : ('\x7b' == c) with
      | false => rfl
      | true =>
        exact absurd (by rw [(beq_iff_eq).mp hc2] at h; exact h.1) (by simp)
    simp only [containsSub, List.isPrefixOf, hc, Bool.false_and, ih h.2,
      Bool.or_self]

theorem replaceSub_placeholder_id (s : Str) (h : hasBrace s = false)
    (k : String) (v : Str) : replaceSub s (placeholderPat k) v = s :=
  replaceSubF_brace_id (k.toList ++ ['\x7d']) v s.length s h

theorem replaceSub_funcPat_id (s : Str) (h : hasBrace s = false)
    (k : String) (v : Str) : replaceSub s (funcPat k) v = s :=
  replaceSubF_brace_id ('$' :: (k.toList ++ ['\x7d'])) v s.length s h

theorem containsSub_funcPat (s : Str) (h : hasBrace s = false) (k : String) :
    containsSub s (funcPat k) = false :=
  containsSub_brace ('$' :: (k.toList ++ ['\x7d'])) s h

theorem substStr_id (params funcs : List (String × Str)) (s : Str)
    (h : hasBrace s = false) : substStr params funcs s = s := by
  have h1 : ∀ (ps : List (String × Str)),
      ps.foldl (fun acc kv => replaceSub acc (placeholderPat kv.1) kv.2) s = s := by
    intro ps
    induction ps with
    | nil => rfl
    | cons kv rest ih =>
      simp only [List.foldl_cons, replaceSub_placeholder_id s h]
      exact ih
  have h2 : ∀ (fs : List (String × Str)),
      fs.foldl (fun acc kv =>
        if containsSub acc (funcPat kv.1) then replaceSub acc (funcPat kv.1) kv.2
        else acc) s = s := by
    intro fs
    induction fs with
    | nil => rfl
    | cons kv rest ih =>
      simp only [List.foldl_cons, containsSub_funcPat s h, Bool.false_eq_true,
        if_false]
      exact ih
  simp only [substStr, h1, h2]

theorem substVal_id (params funcs : List (String × Str)) (v : PyVal)
    (h : noBraceVal v = true) : substVal params funcs v = v := by
  cases v <;> simp only [substVal]
  rename_i s
  simp only [noBraceVal, Bool.not_eq_true'] at h
  rw [substStr_id params funcs s h]

mutual

theorem replaceVars_id (params funcs : List (String × Str)) :
    ∀ (v : PyVal), noBraceVal v = true → replaceVars params funcs v = v
  | .none, _ => rfl
  | .bool _, _ => rfl
  | .int _, _ => rfl
  | .float _, _ => rfl
  | .str s, h => by
    simp only [noBraceVal, Bool.not_eq_true'] at h
    simp only [replaceVars, substStr_id params funcs s h]
  | .datetime _, _ => rfl
  | .list xs, h => by
    simp only [noBraceVal] at h
    simp only [replaceVars, replaceVarsList_id params funcs xs h]
  | .dict kvs, h => by
    simp only [noBraceVal] at h
    simp only [replaceVars, replaceVarsEntries_id params funcs kvs h]
termination_by structural v => v

theorem replaceVarsList_id (params funcs : List (String × Str)) :
    ∀ (xs : List PyVal), noBraceList xs = true →
      replaceVarsList params funcs xs = xs
  | [], _ => rfl
  | x :: xs, h => by
    simp only [noBraceList, Bool.and_eq_true] at h
    simp only [replaceVarsList, replaceVars_id params funcs x h.1,
      replaceVarsList_id params funcs xs h.2]
termination_by structural v => v

theorem replaceVarsEntries_id (params funcs : List (String × Str)) :
    ∀ (kvs : List (String × PyVal)), noBraceEntries kvs = true →
      replaceVarsEntries params funcs kvs = kvs
  | [], _ => rfl
  | (k, v) :: kvs, h => by
    simp only [noBraceEntries, Bool.and_eq_true] at h
    simp only [replaceVarsEntries, replaceVars_id params funcs v h.1,
      replaceVarsEntries_id params funcs kvs h.2]
termination_by structural v => v

end

mutual

theorem transformData_id (params funcs : List (String × Str)) :
    ∀ (v : PyVal), noTypedLeafVal v = true →
      transformData params funcs v = .ok v
  | .none, _ => rfl
  | .bool _, _ => rfl
  | .int _, _ => rfl
  | .float _, _ => rfl
  | .str _, _ => rfl
  | .datetime _, _ => rfl
  | .list xs, h => by
    simp only [noTypedLeafVal] at h
    simp only [transformData, transformDataList_id params funcs xs h]
  | .dict kvs, h => by
    simp only [noTypedLeafVal, Bool.and_eq_true, Bool.not_eq_true'] at h
    simp only [transformData, h.1, Bool.false_eq_true, if_false,
      transformDataEntries_id params funcs kvs h.2]
termination_by structural v => v

theorem transformDataList_id (params funcs : List (String × Str)) :
    ∀ (xs : List PyVal), noTypedLeafList xs = true →
      transformDataList params funcs xs = .ok xs
  | [], _ => rfl
  | x :: xs, h => by
    simp only [noTypedLeafList, Bool.and_eq_true] at h
    simp only [transformDataList, transformData_id params funcs x h.1,
      transformDataList_id params funcs xs h.2]
termination_by structural v => v

theorem transformDataEntries_id (params funcs : List (String × Str)) :
    ∀ (kvs : List (String × PyVal)), noTypedLeafEntries kvs = true →
      transformDataEntries params funcs kvs = .ok kvs
  | [], _ => rfl
  | (k, v) :: kvs, h => by
    simp only [noTypedLeafEntries, Bool.and_eq_true] at h
    simp only [transformDataEntries, transformData_id params funcs v h.1,
      transformDataEntries_id params funcs kvs h.2]
termination_by structural v => v

end

/-- The rendering pipeline is the identity on values with no opening brace
in any string leaf and no typed-leaf sub-object. -/
theorem renderTemplate_id (params funcs : List (String × Str)) (v : PyVal)
    (hb : noBraceVal v = true) (ht : noTypedLeafVal v = true) :
    renderTemplate params funcs v = .ok v := by
  unfold renderTemplate
  rw [replaceVars_id params funcs v hb]
  exact transformData_id params funcs v ht

/-! ## Claim C6 -/

/-- C6: typed-leaf coercion round-trip and lenient fallback - for every
params mapping (and generator environment), rendering the typed leaf with
value `"42"` and type `int` produces the integer `42`, and rendering the
one with value `"nope"` and type `int` produces the string `"nope"` without
raising: the failed coercion falls back to the post-substitution string.
(The source spells the typed-leaf keys `_value` and `_type`.) -/
theorem claim_C6_typed_leaf_coercion (params funcs : List (String × Str)) :
    renderTemplate params funcs typedLeafInt42 = .ok (.int 42)
    ∧ renderTemplate params funcs typedLeafIntNope = .ok (.str "nope".toList) := by
  constructor
  · have h1 : replaceVars params funcs typedLeafInt42 = typedLeafInt42 :=
      replaceVars_id params funcs _ rfl
    have h42 : substStr params funcs ('4' :: '2' :: []) = ('4' :: '2' :: []) :=
      substStr_id _ _ _ rfl
    show transformData params funcs (replaceVars params funcs typedLeafInt42) = _
    rw [h1]
    show (match pyToInt (.str (substStr params funcs ('4' :: '2' :: []))) with
          | .ok n => (Except.ok (PyVal.int n) : Except PyExc PyVal)
          | .error _ => .ok (.str (substStr params funcs ('4' :: '2' :: [])))) =
        .ok (.int 42)
    rw [h42]
    rfl
  · have h1 : replaceVars params funcs typedLeafIntNope = typedLeafIntNope :=
      replaceVars_id params funcs _ rfl
    have hnope : substStr params funcs ('n' :: 'o' :: 'p' :: 'e' :: []) =
        ('n' :: 'o' :: 'p' :: 'e' :: []) := substStr_id _ _ _ rfl
    show transformData params funcs (replaceVars params funcs typedLeafIntNope) = _
    rw [h1]
    show (match pyToInt (.str (substStr params funcs ('n' :: 'o' :: 'p' :: 'e' :: []))) with
          | .ok n => (Except.ok (PyVal.int n) : Except PyExc PyVal)
          | .error _ => .ok (.str (substStr params funcs ('n' :: 'o' :: 'p' :: 'e' :: [])))) =
        .ok (.str "nope".toList)
    rw [hnope]
    rfl

/-! ## Claim C7 -/

/-- C7 counterexample: the typed leaf `{"_value": "1", "_type": "int"}`
contains no `{...}` token, yet rendering it with empty params yields the
integer `1`, not the input value - rendering is not the identity on all
placeholder-free input. -/
theorem claim_C7_counterexample :
    noBraceVal typedLeafInt1 = true
    ∧ renderTemplate [] [] typedLeafInt1 = .ok (.int 1)
    ∧ renderTemplate [] [] typedLeafInt1 ≠ .ok typedLeafInt1 :=
  ⟨rfl, rfl, fun h => PyVal.noConfusion (Except.ok.inj h)⟩

/-- C7 (amended): template rendering is the identity on every value that
contains no `{...}` token in any string leaf and no typed-leaf sub-object
(`_value`+`_type` dict), for every params mapping and generator
environment. -/
theorem claim_C7_render_identity (params funcs : List (String × Str))
    (v : PyVal) (hb : noBraceVal v = true) (ht : noTypedLeafVal v = true) :
    renderTemplate params funcs v = .ok v :=
  renderTemplate_id params funcs v hb ht

/-- C7 witness: a concrete placeholder-free, typed-leaf-free value is
rendered to itself under a nonempty params mapping. -/
theorem claim_C7_render_identity_witness :
    noBraceVal (.dict [("greeting", .str "hello".toList), ("n", .int 5)]) = true
    ∧ noTypedLeafVal (.dict [("greeting", .str "hello".toList), ("n", .int 5)]) = true
    ∧ renderTemplate [("name", "x".toList)] []
        (.dict [("greeting", .str "hello".toList), ("n", .int 5)]) =
      .ok (.dict [("greeting", .str "hello".toList), ("n", .int 5)]) :=
  ⟨rfl, rfl, claim_C7_render_identity [("name", "x".toList)] [] _ rfl rfl⟩

/-! ## Claim C4 -/

theorem splitChar_no_sep (sep : Char) : ∀ (s : Str), sep ∉ s →
    splitChar sep s = [s] := by
  intro s
  induction s with
  | nil => intro _; rfl
  | cons c cs ih =>
    intro h
    simp only [List.mem_cons, not_or] at h
    have hc : (c == sep) = false := by
      simp only [beq_eq_false_iff_ne, ne_eq]
      exact fun hh => h.1 hh.symm
    simp only [splitChar, hc, Bool.false_eq_true, if_false, ih h.2]

theorem splitChar_append (sep : Char) : ∀ (a b : Str), sep ∉ a →
    splitChar sep (a ++ sep :: b) = a :: splitChar sep b := by
  intro a
  induction a with
  | nil =>
    intro b _
    simp only [List.nil_append, splitChar, beq_self_eq_true, if_true]
  | cons c cs ih =>
    intro b h
    simp only [List.mem_cons, not_or] at h
    have hc : (c == sep) = false := by
      simp only [beq_eq_false_iff_ne, ne_eq]
      exact fun hh => h.1 hh.symm
    simp only [List.cons_append, splitChar, hc, Bool.false_eq_true, if_false,
      List.append_eq]
    rw [ih b h.2]

theorem dropTrailing_eq (l : Str) (c : Char) (h : (c == '/') = false) :
    (((l ++ [c]).reverse.dropWhile (fun x => x == '/')).reverse) = l ++ [c] := by
  simp [List.reverse_append, List.dropWhile, h]

theorem segsOf_items_seg (seg : Str) (hne : seg ≠ []) (hnos : '/' ∉ seg) :
    segsOf ('/' :: 'i' :: 't' :: 'e' :: 'm' :: 's' :: '/' :: seg) =
      [['i', 't', 'e', 'm', 's'], seg] := by
  obtain ⟨init, c, hct⟩ := (List.eq_nil_or_concat seg).resolve_left hne
  rw [List.concat_eq_append] at hct
  subst hct
  have hc : (c == '/') = false := by
    simp only [beq_eq_false_iff_ne, ne_eq]
    intro hh
    exact hnos (by rw [hh]; simp)
  have hstrip : pyStripChar '/'
      ('/' :: 'i' :: 't' :: 'e' :: 'm' :: 's' :: '/' :: (init ++ [c])) =
      'i' :: 't' :: 'e' :: 'm' :: 's' :: '/' :: (init ++ [c]) := by
    unfold pyStripChar
    rw [List.dropWhile_cons]
    simp only [beq_self_eq_true, if_true]
    rw [List.dropWhile_cons]
    simp only [show (('i' : Char) == '/') = false from rfl, Bool.false_eq_true,
      if_false]
    have h2 := dropTrailing_eq (['i', 't', 'e', 'm', 's', '/'] ++ init) c hc
    simpa [List.append_assoc] using h2
  unfold segsOf
  rw [hstrip]
  rw [show ('i' :: 't' :: 'e' :: 'm' :: 's' :: '/' :: (init ++ [c]) : Str) =
    ['i', 't', 'e', 'm', 's'] ++ '/' :: (init ++ [c]) from rfl]
  rw [splitChar_append '/' _ _ (by decide)]
  rw [splitChar_no_sep '/' _ hnos]

/-- C4: path matching splits the declared and request paths on `/` (after
stripping outer slashes); it succeeds exactly when segment counts are equal
and every declared segment is either brace-wrapped (matching any single
request segment) or equal to the request segment.  In particular,
`/items/{id}` matches `/items/42` and `/items/abc`, matches
`/items/<seg>` for every nonempty slash-free segment, and matches neither
`/items/42/extra` nor `/items`. -/
theorem claim_C4_path_matching :
    matchPathWithParams "/items/{id}".toList "/items/42".toList = true
    ∧ matchPathWithParams "/items/{id}".toList "/items/abc".toList = true
    ∧ matchPathWithParams "/items/{id}".toList "/items/42/extra".toList = false
    ∧ matchPathWithParams "/items/{id}".toList "/items".toList = false
    ∧ (∀ rs ps : List Str, matchPathSegs rs ps = true ↔
        (rs.length = ps.length ∧
          ∀ rp ∈ rs.zip ps, isParamSeg rp.1 = true ∨ rp.1 = rp.2))
    ∧ (∀ seg : Str, seg ≠ [] → '/' ∉ seg →
        matchPathWithParams "/items/{id}".toList
          ("/items/".toList ++ seg) = true) := by
  refine ⟨rfl, rfl, rfl, rfl, ?_, ?_⟩
  · intro rs ps
    simp [matchPathSegs, List.all_eq_true]
  · intro seg hne hnos
    unfold matchPathWithParams
    rw [show ("/items/".toList ++ seg : Str) =
      '/' :: 'i' :: 't' :: 'e' :: 'm' :: 's' :: '/' :: seg from rfl]
    rw [segsOf_items_seg seg hne hnos]
    rfl

/-- C4 witness: the wildcard conjunct applied to the concrete segment
`xyz`. -/
theorem claim_C4_path_matching_witness :
    matchPathWithParams "/items/{id}".toList
      ("/items/".toList ++ "xyz".toList) = true :=
  claim_C4_path_matching.2.2.2.2.2 "xyz".toList (by decide) (by decide)

/-! ## Claim C5 -/

theorem splitFirstDot_append (c : Str) : ∀ (p : Str), '.' ∉ p →
    splitFirstDot (p ++ '.' :: c) = some (p, c) := by
  intro p
  induction p with
  | nil => intro _; simp [splitFirstDot]
  | cons x xs ih =>
    intro h
    simp only [List.mem_cons, not_or] at h
    have hx : (x == '.') = false := by
      simp only [beq_eq_false_iff_ne, ne_eq]
      exact fun hh => h.1 hh.symm
    simp only [List.cons_append, splitFirstDot, hx, Bool.false_eq_true, if_false,
      List.append_eq, ih h.2]
    rfl

/-- C5: required-field validation with dotted paths - the schema with
`required = ["a", "b.c"]` rejects `{"a": 1, "b": {}}` with a validation
error (HTTP 400) naming `b.c`, accepts `{"a": 1, "b": {"c": 2}}`, and in
general a dotted requirement `parent.child` is satisfied exactly when the
payload maps `parent` to a nested dict containing `child`. -/
theorem claim_C5_required_dotted :
    validateData [("a", .int 1), ("b", .dict [])] requiredDotSchema =
      .error (.httpException 400 "missing required fields: b.c")
    ∧ missingRequiredFields [("a", .int 1), ("b", .dict [])] ["a", "b.c"] = ["b.c"]
    ∧ validateData [("a", .int 1), ("b", .dict [("c", .int 2)])] requiredDotSchema = .ok ()
    ∧ (∀ (data : List (String × PyVal)) (parent child : Str), '.' ∉ parent →
        (isFieldMissing data (String.mk (parent ++ '.' :: child)) = false ↔
          ∃ kvs, lookupEntry data (String.mk parent) = some (.dict kvs)
            ∧ hasEntry kvs (String.mk child) = true)) := by
  refine ⟨rfl, rfl, rfl, ?_⟩
  intro data parent child hp
  unfold isFieldMissing
  rw [show (String.mk (parent ++ '.' :: child)).toList = parent ++ '.' :: child
    from rfl]
  rw [splitFirstDot_append child parent hp]
  show (match lookupEntry data (String.mk parent) with
        | Option.none => true
        | some v =>
          match v with
          | .dict kvs => !(hasEntry kvs (String.mk child))
          | _ => true) = false ↔ _
  cases hl : lookupEntry data (String.mk parent) with
  | none => simp
  | some v => cases v <;> simp

/-- C5 witness: the dotted-requirement equivalence applied at the concrete
payload `{"b": {"c": 2}}` and the field `b.c`. -/
theorem claim_C5_required_dotted_witness :
    isFieldMissing [("b", (.dict [("c", .int 2)] : PyVal))]
      (String.mk ("b".toList ++ '.' :: "c".toList)) = false :=
  (claim_C5_required_dotted.2.2.2 _ "b".toList "c".toList (by decide)).mpr
    ⟨[("c", .int 2)], rfl, rfl⟩

/-! ## Claim C9 -/

/-- C9: the `int`/`integer` schema check is total only for int-or-string
values - a declared-int field whose value is a float, list, dict or `None`
makes the validator lambda call `.isdigit()` on it and raise
`AttributeError` (which `validate_data` does not convert to a validation
error), while a `bool` value passes the check because Python bools are
ints. -/
theorem claim_C9_int_check_partiality :
    (∀ (f : String) (r : String), validateFieldType f (.float r) intFieldSchema =
      .error (.attributeError "isdigit"))
    ∧ (∀ (f : String) (xs : List PyVal), validateFieldType f (.list xs) intFieldSchema =
        .error (.attributeError "isdigit"))
    ∧ (∀ (f : String) (kvs : List (String × PyVal)),
        validateFieldType f (.dict kvs) intFieldSchema =
          .error (.attributeError "isdigit"))
    ∧ (∀ (f : String), validateFieldType f .none intFieldSchema =
        .error (.attributeError "isdigit"))
    ∧ (∀ (f : String) (r : String), validateFieldType f (.float r) integerFieldSchema =
        .error (.attributeError "isdigit"))
    ∧ (∀ (f : String) (b : Bool), validateFieldType f (.bool b) intFieldSchema = .ok ())
    ∧ (∀ (f : String) (b : Bool),
        validateFieldType f (.bool b) integerFieldSchema = .ok ())
    ∧ validateData [("x", .float "1.5")] xIntSchema =
        .error (.attributeError "isdigit") :=
  ⟨fun _ _ => rfl, fun _ _ => rfl, fun _ _ => rfl, fun _ => rfl, fun _ _ => rfl,
   fun _ _ => rfl, fun _ _ => rfl, rfl⟩

/-! ## Claim C3 -/

/-- C3: route merge is last-writer-wins per (path, method) - merging two
sources that declare the same path, the first with a GET entry and the
second with GET and POST entries, yields a registry mapping that path to
exactly the second source's GET and POST entries, with one override warning
recorded for GET; the merge returns normally (an override is never an
error). -/
theorem claim_C3_route_merge_last_writer_wins :
    ∀ (p : String) (g1 g2 post : MethodC),
      g1.method = "GET" → g2.method = "GET" → post.method = "POST" →
      loadRoutesMerge [[⟨p, [g1]⟩], [⟨p, [g2, post]⟩]] =
        ([(p, ⟨p, [g2, post]⟩)], [("GET", p)]) := by
  intro p g1 g2 post h1 h2 h3
  obtain ⟨m1, pay1⟩ := g1
  obtain ⟨m2, pay2⟩ := g2
  obtain ⟨m3, pay3⟩ := post
  simp only at h1 h2 h3
  subst h1
  subst h2
  subst h3
  simp [loadRoutesMerge, mergeRoute, buildMethodDict, lookupEntry, setEntry,
    hasEntry, List.flatten]

/-- C3 witness: the merge at the concrete path `/acc` with tagged method
entries. -/
theorem claim_C3_route_merge_last_writer_wins_witness :
    loadRoutesMerge [[⟨"/acc", [⟨"GET", 0⟩]⟩],
                     [⟨"/acc", [⟨"GET", 1⟩, ⟨"POST", 2⟩]⟩]] =
      ([("/acc", ⟨"/acc", [⟨"GET", 1⟩, ⟨"POST", 2⟩]⟩)], [("GET", "/acc")]) :=
  claim_C3_route_merge_last_writer_wins "/acc" ⟨"GET", 0⟩ ⟨"GET", 1⟩
    ⟨"POST", 2⟩ rfl rfl rfl

/-! ## Claim C10 -/

theorem lookup_setEntry {α : Type} (c : List (String × α)) (k k2 : String)
    (v : α) :
    lookupEntry (setEntry c k v) k2 =
      if k == k2 then some v else lookupEntry c k2 := by
  induction c with
  | nil => rfl
  | cons kv rest ih =>
    obtain ⟨k3, v3⟩ := kv
    by_cases h3 : k3 = k
    · subst h3
      by_cases hk : k3 = k2
      · subst hk
        simp [setEntry, lookupEntry]
      · simp [setEntry, lookupEntry, hk]
    · by_cases hk2 : k3 = k2
      · subst hk2
        have h3s : ¬ k = k3 := fun h => h3 h.symm
        simp [setEntry, lookupEntry, h3, h3s]
      · simp [setEntry, lookupEntry, h3, hk2, ih]

/-- C10: every `process_request` call - browser-noise paths included - runs
through the rate limiter keyed by `request:<path>:<client id>` with limit 5
per 3600 seconds: whenever five or more recorded timestamps for that key lie
inside the window, the request is answered 429 with the cache unchanged and
the downstream pipeline (route matching, validation, rendering) is never
consulted - the result is the same for every handler; and the per-key stored
timestamp list never exceeds five entries. -/
theorem claim_C10_rate_limited_request :
    (∀ (handler : PyRequest → Except PyExc PyVal) (cache : RateCache)
        (req : PyRequest) (now : Int),
      5 ≤ (((lookupEntry cache (rateLimitKey req)).getD []).filter
            (fun t => now - 3600 < t)).length →
      processRequestModel handler cache req now =
        (cache, .error (.httpException 429 "rate limit exceeded")))
    ∧ (∀ (cache : RateCache) (key : String) (now : Int),
        (∀ k l, lookupEntry cache k = some l → l.length ≤ 5) →
        ∀ k l, lookupEntry (rateLimitStep cache key now 5 3600).1 k = some l →
          l.length ≤ 5) := by
  constructor
  · intro handler cache req now h
    unfold processRequestModel rateLimitStep
    rw [if_pos h]
  · intro cache key now hinv k l hl
    unfold rateLimitStep at hl
    by_cases hre : 5 ≤ (((lookupEntry cache key).getD []).filter
        (fun t => now - 3600 < t)).length
    · rw [if_pos hre] at hl
      exact hinv k l hl
    · rw [if_neg hre] at hl
      simp only [lookup_setEntry] at hl
      by_cases hk : key = k
      · subst hk
        simp only [beq_self_eq_true, if_true, Option.some.injEq] at hl
        subst hl
        simp only [List.length_append, List.length_cons, List.length_nil]
        omega
      · simp only [beq_eq_false_iff_ne.mpr hk, Bool.false_eq_true, if_false] at hl
        exact hinv k l hl

/-- C10 witness: a favicon request from a client with five in-window
timestamps is answered 429 with the cache unchanged, for a concrete
handler. -/
theorem claim_C10_rate_limited_request_witness :
    processRequestModel (fun _ => .ok PyVal.none) fullCacheExample
      faviconRequest 600 =
      (fullCacheExample, .error (.httpException 429 "rate limit exceeded")) :=
  claim_C10_rate_limited_request.1 (fun _ => .ok PyVal.none) fullCacheExample
    faviconRequest 600 (by decide)

/-! ## Claim C8 -/

/-- C8 evaluation: a webhook transport failure is swallowed, not surfaced -
`send_webhook` turns both `aiohttp.ClientError` and any unexpected exception
into `None`, and `process_webhook` never reaches its 500-with-url/payload
handler anyway because its two-argument `replace_template_vars` calls raise
`TypeError` first (for every transport outcome alike). -/
theorem claim_C8_webhook_failure_swallowed (outcome : TransportOutcome) :
    sendWebhook (.clientError "connection refused") = Option.none
    ∧ sendWebhook (.unexpectedError "timeout") = Option.none
    ∧ processWebhook webhookCfgExample webhookParamsExample outcome =
        .error (.typeError
          "replace_template_vars() missing 1 required positional argument") :=
  ⟨rfl, rfl, rfl⟩

/-! ## Claim C2 -/

/-- C2 evaluation: hierarchy construction handles the two-level chain
`a`, `a.b` declared in order, but the three-level chain `a`, `a.b`,
`a.b.c` declared in order raises `KeyError("children")` - the node `b` was
attached as a final child without a `children` key, and the later descent
subscripts it - contradicting the repository's own
`test_hierarchical_repeat.py`, which asserts a four-level chain builds. -/
theorem claim_C2_build_hierarchy_chain :
    buildRepeatHierarchy chainPrefixItems =
      .ok [.dict [("name", .str "a".toList), ("count", .str "1".toList),
                  ("children", .list [.dict [("name", .str "b".toList),
                                             ("count", .str "2".toList)]])]]
    ∧ buildRepeatHierarchy chainRepeatItems =
        .error (.keyError (.str "children".toList))
    ∧ buildRepeatHierarchy [repeatItem "a" "1", repeatItem "a" "5"] =
        .ok [.dict [("name", .str "a".toList), ("count", .str "5".toList),
                    ("children", .list [])]] := ⟨rfl, rfl, rfl⟩

/-! ## Claim C1 -/

/-- C1 counterexample: over the claim's unit template
`{"chats": {"users": ["u"]}}` with empty params, the repeat execution does
not assemble any result - the child extraction subscripts the dict under
`chats` with index 0, raising `KeyError(0)`, which `processing_result`
converts into an HTTP 500 - so no object with a 2-element `chats` array is
produced. -/
theorem claim_C1_counterexample :
    processingResult [] [] chatsUnitTemplate chatsRepeatExtra =
      .error (.httpException 500 "KeyError")
    ∧ ¬ ∃ v, processingResult [] [] chatsUnitTemplate chatsRepeatExtra =
        .ok v :=
  ⟨rfl, fun ⟨_, hv⟩ => Except.noConfusion hv⟩

/-- C1 (amended): for every params mapping and generator environment,
executing the items `[{chats, 2}, {chats.users, 3}]` over the unit template
`{"chats": {"users": ["u"]}}` fails with HTTP 500 (detail `KeyError`)
instead of assembling a result; over the singleton-list-shaped unit template
`{"chats": [{"users": ["u"]}]}` (the result shape the extraction step
assumes) it assembles an object whose `chats` key holds exactly 2 elements,
each carrying 4 `users` entries (the unit's own entry plus the 3 appended
per chat), for a total of 8 across the batch. -/
theorem claim_C1_hierarchical_repeat (params funcs : List (String × Str)) :
    processingResult params funcs chatsUnitTemplate chatsRepeatExtra =
      .error (.httpException 500 "KeyError")
    ∧ processingResult params funcs chatsUnitTemplateList chatsRepeatExtra =
        .ok chatsExpectedResult := by
  have h2s : substVal params funcs (.str ('2' :: [])) = .str ('2' :: []) := by
    show PyVal.str (substStr params funcs ('2' :: [])) = _
    rw [substStr_id params funcs ('2' :: []) rfl]
  have h3s : substVal params funcs (.str ('3' :: [])) = .str ('3' :: []) := by
    show PyVal.str (substStr params funcs ('3' :: [])) = _
    rw [substStr_id params funcs ('3' :: []) rfl]
  constructor
  · have hrd : renderTemplate params funcs
        (.dict [("chats", .dict [("users", .list [.str ('u' :: [])])])]) =
        .ok (.dict [("chats", .dict [("users", .list [.str ('u' :: [])])])]) :=
      renderTemplate_id params funcs _ rfl rfl
    simp [processingResult, chatsRepeatExtra, chatsRepeatItems, repeatItem,
      chatsUnitTemplate, pyTruthy, dictGet, lookupEntry, hasEntry,
      buildRepeatHierarchy, buildRepeatHierarchyAux, buildNested,
      addOrUpdateRootItem, findSplitByName, nameMatches, splitChar, dictSet,
      dictGetD, executeHierarchicalRepeat, executeHierarchicalRepeatAux,
      processNestedChildren, pySubscriptStr, pySubscriptInt, pyInKey, get_int,
      pyIntOfStr, digitsToInt, extractDataByName, mergeNestedData,
      updateEntries, pySetItemStr, setEntry, flattenSublists, excText,
      pyExtendList, pyIterElems, pyListSetAt, beqVal,
      List.replicate, hrd, h2s, h3s]
  · have hrl : renderTemplate params funcs
        (.dict [("chats", .list [.dict [("users", .list [.str ('u' :: [])])]])]) =
        .ok (.dict [("chats", .list [.dict [("users", .list [.str ('u' :: [])])]])]) :=
      renderTemplate_id params funcs _ rfl rfl
    simp [processingResult, chatsRepeatExtra, chatsRepeatItems, repeatItem,
      chatsUnitTemplateList, chatsExpectedResult, chatsExpectedElem, pyTruthy,
      dictGet, lookupEntry, hasEntry,
      buildRepeatHierarchy, buildRepeatHierarchyAux, buildNested,
      addOrUpdateRootItem, findSplitByName, nameMatches, splitChar, dictSet,
      dictGetD, executeHierarchicalRepeat, executeHierarchicalRepeatAux,
      processNestedChildren, pySubscriptStr, pySubscriptInt, pyInKey, get_int,
      pyIntOfStr, digitsToInt, extractDataByName, mergeNestedData,
      updateEntries, pySetItemStr, setEntry, flattenSublists, excText,
      pyExtendList, pyIterElems, pyListSetAt, beqVal,
      List.replicate, hrl, h2s, h3s]

end ApiEmulator
